import Mathlib

/-!
Shallow embedding of the VATSIM station monitor (`src/web/app.py`): the shared
application state (monitored station set, status map, bounded log, debug flag),
the web-form handlers of `index` (add station, remove station, toggle debug),
and one execution of the 5-second `monitor_vatsim` polling task.

The feed payload is modelled by the shape the code inspects: an optional
`controllers` field that is either a list of controller records (each with an
optional `callsign`) or some non-list value; a tick's fetch either yields a
payload or raises, represented by `FeedResult`.  Notifications are the
`send_ping` calls, recorded as structured `Notif` values whose exact message
text is `Notif.msg`.  Each tick also reports the list of messages passed to
`log` during the tick (`events`), so that "a warning was logged" is observable
even after FIFO eviction.
-/

namespace VatsimApp

/-- Python list membership of the status-map log entry: `f"[{timestamp}] {msg}"`
as built by `log`. -/
def mkEntry (ts msg : String) : String := "[" ++ ts ++ "] " ++ msg

/-- The body of `log`: append the entry, then `if len(logs) > 300: logs.pop(0)`.
The timestamped entry is built by the caller via `mkEntry`. -/
def logOp (logs : List String) (entry : String) : List String :=
  let l := logs ++ [entry]
  if l.length > 300 then l.drop 1 else l

/-- Models Python `str.upper` (character-wise uppercasing). -/
def pyUpper (s : String) : String := String.mk (s.data.map Char.toUpper)

/-- Models Python `str.strip` (drop leading and trailing whitespace). -/
def pyStrip (s : String) : String :=
  String.mk (((s.data.dropWhile fun c => c.isWhitespace).reverse.dropWhile
      fun c => c.isWhitespace).reverse)

/-- The normalization applied by the `add_station` branch:
`request.form["station"].upper().strip()`. -/
def normalizeStation (s : String) : String := pyStrip (pyUpper s)

/-- `station_status` is a Python dict from station identifier to boolean,
modelled as an association list. -/
abbrev StatusMap := List (String × Bool)

/-- Dict lookup: `station_status.get(station, default)` returns
`(statusGet m station).getD default`. -/
def statusGet : StatusMap → String → Option Bool
  | [], _ => none
  | (k, v) :: rest, s => if k = s then some v else statusGet rest s

/-- Dict assignment `station_status[station] = b`: replace the binding if the
key is present, otherwise add it. -/
def statusSet : StatusMap → String → Bool → StatusMap
  | [], s, b => [(s, b)]
  | (k, v) :: rest, s, b => if k = s then (s, b) :: rest else (k, v) :: statusSet rest s b

/-- Dict removal `station_status.pop(station, None)`: drop any binding for the
key, never raising. -/
def statusPop (m : StatusMap) (s : String) : StatusMap :=
  m.filter fun p => p.1 != s

/-- `monitored_stations` is a Python set of strings, modelled as a
duplicate-free list; `set.add`. -/
def setAdd (m : List String) (s : String) : List String :=
  if s ∈ m then m else m ++ [s]

/-- `set.discard`: removal that never raises. -/
def setDiscard (m : List String) (s : String) : List String :=
  m.filter fun t => t != s

/-- The shared in-memory state of the application. -/
structure AppState where
  monitored_stations : List String
  station_status : StatusMap
  logs : List String
  debug_mode : Bool
deriving DecidableEq

/-- The `add_station` branch of `index`: normalize, silently reject
empty-after-strip, insert and log otherwise. -/
def addStation (raw ts : String) (st : AppState) : AppState :=
  let station := normalizeStation raw
  if station = "" then st
  else
    { st with
      monitored_stations := setAdd st.monitored_stations station
      logs := logOp st.logs (mkEntry ts ("Started monitoring " ++ station)) }

/-- The `remove_station` branch of `index`: discard from the monitored set,
pop the status entry, and log — with no normalization and no absence check. -/
def removeStation (station ts : String) (st : AppState) : AppState :=
  { st with
    monitored_stations := setDiscard st.monitored_stations station
    station_status := statusPop st.station_status station
    logs := logOp st.logs (mkEntry ts ("Stopped monitoring " ++ station)) }

/-- The `toggle_debug` branch of `index`. -/
def toggleDebug (ts : String) (st : AppState) : AppState :=
  let d := !st.debug_mode
  { st with
    debug_mode := d
    logs := logOp st.logs (mkEntry ts ("Debug mode " ++ if d then "ENABLED" else "DISABLED")) }

/-- One controller record of the feed: the string value of its `callsign`
field when that key is present. -/
structure Ctrl where
  callsign : Option String
deriving DecidableEq

/-- The value found under the payload's `controllers` key: either a JSON list
of controller records or some non-list value. -/
inductive ControllersField where
  | jlist (ctrls : List Ctrl)
  | nonList
deriving DecidableEq

/-- A parsed feed payload: the `controllers` key may be absent. -/
structure Payload where
  controllers : Option ControllersField
deriving DecidableEq

/-- Outcome of fetching and parsing the feed on one tick: a payload, or an
exception raised by `requests.get` / `response.json`. -/
inductive FeedResult where
  | ok (p : Payload)
  | err (e : String)
deriving DecidableEq

/-- A notification, i.e. one call to `send_ping`; `Notif.msg` is the exact
message text passed. -/
inductive Notif where
  | online (station : String)
  | offline (station : String)
  | debug
deriving DecidableEq

/-- The message string each `send_ping` call site passes. -/
def Notif.msg : Notif → String
  | .online s => "🟢 **" ++ s ++ "** is now ONLINE"
  | .offline s => "🔴 **" ++ s ++ "** is now OFFLINE"
  | .debug => "🧪 Debug mode test ping"

/-- How a `send_ping` call resolves: delivered, `Forbidden`, or some other
exception — all swallowed inside `send_ping` itself. -/
inductive SendOutcome where
  | sent
  | forbidden
  | error (e : String)
deriving DecidableEq

/-- `controllers = data.get("controllers", [])` followed by the
`isinstance(list)` check: the resulting list and whether the warning branch
was taken.  A missing key defaults to `[]`, which is a list, so only a
present non-list value triggers the warning. -/
def controllersOf (p : Payload) : List Ctrl × Bool :=
  match p.controllers with
  | none => ([], false)
  | some (.jlist l) => (l, false)
  | some .nonList => ([], true)

/-- `online_callsigns = {ctrl.get("callsign") for ctrl in controllers if "callsign" in ctrl}`. -/
def onlineCallsignsOf (ctrls : List Ctrl) : List String :=
  ctrls.filterMap Ctrl.callsign

/-- The online set a tick computes from a payload. -/
def onlineSetOf (p : Payload) : List String :=
  onlineCallsignsOf (controllersOf p).1

/-- Mutable context threaded through one tick: the status dict, the log, the
messages passed to `log` this tick, and the `send_ping` calls made this tick. -/
structure TickAcc where
  status : StatusMap
  logs : List String
  events : List String
  pings : List Notif
deriving DecidableEq

/-- One `log(msg)` call inside a tick. -/
def accLog (acc : TickAcc) (entry : String) : TickAcc :=
  { acc with logs := logOp acc.logs entry, events := acc.events ++ [entry] }

/-- One `await send_ping(msg)` call inside a tick: record the notification and
perform `send_ping`'s own logging, which swallows every failure. -/
def accPing (so : SendOutcome) (ts : String) (acc : TickAcc) (n : Notif) : TickAcc :=
  let acc1 := { acc with pings := acc.pings ++ [n] }
  match so with
  | .sent => accLog acc1 (mkEntry ts "Discord message sent")
  | .forbidden => accLog acc1 (mkEntry ts "ERROR: Discord Forbidden (missing permissions)")
  | .error e => accLog acc1 (mkEntry ts ("ERROR sending Discord message: " ++ e))

/-- The body of the `for station in monitored_stations` loop of
`monitor_vatsim`. -/
def processStation (so : SendOutcome) (ts : String) (online : List String)
    (acc : TickAcc) (station : String) : TickAcc :=
  let is_online := online.contains station
  let was_online := (statusGet acc.status station).getD false
  let acc1 :=
    if is_online && !was_online then
      accLog (accPing so ts acc (Notif.online station)) (mkEntry ts (station ++ " logged ON"))
    else if !is_online && was_online then
      accLog (accPing so ts acc (Notif.offline station)) (mkEntry ts (station ++ " logged OFF"))
    else acc
  { acc1 with status := statusSet acc1.status station is_online }

/-- Result of one tick: the new application state, the notifications sent, and
the messages logged during the tick. -/
structure TickOut where
  state : AppState
  pings : List Notif
  events : List String
deriving DecidableEq

/-- Entry into a tick: the shared state as the loop sees it, after the
`log("monitor_vatsim tick")` marker. -/
def tickStart (ts : String) (st : AppState) : TickAcc :=
  accLog { status := st.station_status, logs := st.logs, events := [], pings := [] }
    (mkEntry ts "monitor_vatsim tick")

/-- The `try`/`except` block of `monitor_vatsim`: on a successful fetch, the
controllers check and the per-station loop; on a raised exception, the
`except` handler's log call. -/
def tickBody (fr : FeedResult) (so : SendOutcome) (ts : String) (mon : List String)
    (acc1 : TickAcc) : TickAcc :=
  match fr with
  | .err e => accLog acc1 (mkEntry ts ("ERROR in VATSIM section: " ++ e))
  | .ok p =>
    let cw := controllersOf p
    let acc :=
      if cw.2 then
        accLog acc1 (mkEntry ts "WARNING: VATSIM 'controllers' key is missing or invalid")
      else acc1
    mon.foldl (processStation so ts (onlineCallsignsOf cw.1)) acc

/-- The trailing debug-mode block of `monitor_vatsim`, which fires every tick
when the flag is set. -/
def debugPing (so : SendOutcome) (ts : String) (dbg : Bool) (acc : TickAcc) : TickAcc :=
  if dbg then accLog (accPing so ts acc Notif.debug) (mkEntry ts "Debug ping sent") else acc

/-- One execution of the `monitor_vatsim` task body: log the tick marker, run
the `try`/`except` block, then the debug-mode ping, and write the resulting
status dict and log back into the shared state. -/
def monitor_vatsim (fr : FeedResult) (so : SendOutcome) (ts : String) (st : AppState) : TickOut :=
  let acc := debugPing so ts st.debug_mode (tickBody fr so ts st.monitored_stations (tickStart ts st))
  { state := { st with station_status := acc.status, logs := acc.logs }
    pings := acc.pings
    events := acc.events }

/-- An externally observable event of the running system: one of the three
form POSTs, or one timer tick with its fetch result and delivery outcome. -/
inductive Ev where
  | add (raw ts : String)
  | remove (station ts : String)
  | toggle (ts : String)
  | tick (fr : FeedResult) (so : SendOutcome) (ts : String)
deriving DecidableEq

/-- The state transition of one event. -/
def step (st : AppState) (ev : Ev) : AppState :=
  match ev with
  | .add raw ts => addStation raw ts st
  | .remove s ts => removeStation s ts st
  | .toggle ts => toggleDebug ts st
  | .tick fr so ts => (monitor_vatsim fr so ts st).state

/-- The state at module load: empty set, empty dict, empty log, debug off. -/
def initState : AppState :=
  { monitored_stations := [], station_status := [], logs := [], debug_mode := false }

/-- The state reached after a sequence of events from startup. -/
def run (evs : List Ev) : AppState := evs.foldl step initState

/-- The notifications one iteration of the station loop sends, as a function
of the computed `is_online`, the recalled `was_online`, and the station. -/
def stationPings (is_online was_online : Bool) (t : String) : List Notif :=
  if is_online && !was_online then [Notif.online t]
  else if !is_online && was_online then [Notif.offline t]
  else []

/-- Agreement of two tick contexts on everything except the log contents. -/
def accSim (a b : TickAcc) : Prop :=
  a.status = b.status ∧ a.events = b.events ∧ a.pings = b.pings

/-- The log entry produced inside `send_ping` for a given delivery outcome. -/
def pingLogEntry (so : SendOutcome) (ts : String) : String :=
  match so with
  | .sent => mkEntry ts "Discord message sent"
  | .forbidden => mkEntry ts "ERROR: Discord Forbidden (missing permissions)"
  | .error e => mkEntry ts ("ERROR sending Discord message: " ++ e)

/-- The log messages one iteration of the station loop produces. -/
def stationEvents (so : SendOutcome) (ts : String) (is_online was_online : Bool)
    (t : String) : List String :=
  if is_online && !was_online then [pingLogEntry so ts, mkEntry ts (t ++ " logged ON")]
  else if !is_online && was_online then [pingLogEntry so ts, mkEntry ts (t ++ " logged OFF")]
  else []

/-- A concrete state for instantiating theorems: one monitored station with no
recorded status, empty log, debug off. -/
def exSt : AppState :=
  { monitored_stations := ["AAA"], station_status := [], logs := [], debug_mode := false }

/-- A concrete payload whose controllers list carries the callsign AAA. -/
def exPayloadOnline : Payload := ⟨some (.jlist [⟨some "AAA"⟩])⟩

/-- A concrete payload with no `controllers` key at all. -/
def exPayloadMissing : Payload := ⟨none⟩

/-- A concrete payload whose `controllers` value is not a list. -/
def exPayloadNonList : Payload := ⟨some .nonList⟩

/-! ### Lemmas about the state primitives -/

theorem statusGet_statusSet_self (m : StatusMap) (s : String) (b : Bool) :
    statusGet (statusSet m s b) s = some b := by
  induction m with
  | nil => simp [statusSet, statusGet]
  | cons p rest ih =>
    obtain ⟨k, v⟩ := p
    by_cases h : k = s
    · simp [statusSet, h, statusGet]
    · simp [statusSet, h, statusGet, ih]

theorem statusGet_statusSet_ne (m : StatusMap) (k s : String) (b : Bool) (h : k ≠ s) :
    statusGet (statusSet m k b) s = statusGet m s := by
  induction m with
  | nil => simp [statusSet, statusGet, h]
  | cons p rest ih =>
    obtain ⟨k1, v1⟩ := p
    by_cases h1 : k1 = k
    · simp [statusSet, h1, statusGet, h]
    · simp [statusSet, h1, statusGet, ih]

theorem statusGet_statusPop_self (m : StatusMap) (s : String) :
    statusGet (statusPop m s) s = none := by
  induction m with
  | nil => simp [statusPop, statusGet]
  | cons p rest ih =>
    obtain ⟨k, v⟩ := p
    by_cases h : k = s
    · simpa [statusPop, h] using ih
    · simpa [statusPop, statusGet, h] using ih

theorem statusGet_eq_none_iff (m : StatusMap) (s : String) :
    statusGet m s = none ↔ ∀ p ∈ m, p.1 ≠ s := by
  induction m with
  | nil => simp [statusGet]
  | cons p rest ih =>
    obtain ⟨k, v⟩ := p
    by_cases h : k = s
    · simp [statusGet, h]
    · simp [statusGet, h, ih]

theorem statusPop_eq_self (m : StatusMap) (s : String) (h : statusGet m s = none) :
    statusPop m s = m := by
  rw [statusGet_eq_none_iff] at h
  unfold statusPop
  rw [List.filter_eq_self]
  intro p hp
  simpa using h p hp

theorem statusGet_isSome_statusSet (m : StatusMap) (k s : String) (b : Bool)
    (h : (statusGet (statusSet m k b) s).isSome) :
    s = k ∨ (statusGet m s).isSome := by
  by_cases hk : k = s
  · exact Or.inl hk.symm
  · rw [statusGet_statusSet_ne m k s b hk] at h
    exact Or.inr h

theorem statusGet_isSome_statusPop (m : StatusMap) (k s : String)
    (h : (statusGet (statusPop m k) s).isSome) :
    (statusGet m s).isSome := by
  induction m with
  | nil => simp [statusPop, statusGet] at h
  | cons p rest ih =>
    obtain ⟨k1, v1⟩ := p
    by_cases h1 : k1 = k
    · simp only [statusPop, List.filter] at h ih
      simp only [h1, bne_self_eq_false] at h
      by_cases h2 : k1 = s
      · simp [statusGet, h2]
      · simpa [statusGet, h2] using ih h
    · simp only [statusPop, List.filter] at h ih
      rw [show (k1 != k) = true by simpa using h1] at h
      by_cases h2 : k1 = s
      · simp [statusGet, h2]
      · simp only [statusGet, h2, if_false] at h ⊢
        exact ih h

theorem mem_setAdd_self (m : List String) (s : String) : s ∈ setAdd m s := by
  unfold setAdd
  split
  · assumption
  · simp

theorem mem_setAdd_iff (m : List String) (s t : String) :
    t ∈ setAdd m s ↔ t ∈ m ∨ t = s := by
  unfold setAdd
  split
  · rename_i h
    constructor
    · exact Or.inl
    · rintro (h1 | rfl) <;> [exact h1; exact h]
  · simp

theorem mem_setDiscard_iff (m : List String) (s t : String) :
    t ∈ setDiscard m s ↔ t ∈ m ∧ t ≠ s := by
  unfold setDiscard
  simp [List.mem_filter]

theorem setDiscard_eq_self (m : List String) (s : String) (h : s ∉ m) :
    setDiscard m s = m := by
  unfold setDiscard
  rw [List.filter_eq_self]
  intro t ht
  have hne : t ≠ s := fun he => h (he ▸ ht)
  simpa using hne

/-! ### Lemmas about one tick-context operation -/

theorem accLog_status (acc : TickAcc) (e : String) : (accLog acc e).status = acc.status := rfl

theorem accLog_pings (acc : TickAcc) (e : String) : (accLog acc e).pings = acc.pings := rfl

theorem accLog_events (acc : TickAcc) (e : String) :
    (accLog acc e).events = acc.events ++ [e] := rfl

theorem accPing_status (so : SendOutcome) (ts : String) (acc : TickAcc) (n : Notif) :
    (accPing so ts acc n).status = acc.status := by
  cases so <;> rfl

theorem accPing_pings (so : SendOutcome) (ts : String) (acc : TickAcc) (n : Notif) :
    (accPing so ts acc n).pings = acc.pings ++ [n] := by
  cases so <;> rfl

theorem accPing_events_append (so : SendOutcome) (ts : String) (acc : TickAcc) (n : Notif) :
    ∃ e, (accPing so ts acc n).events = acc.events ++ [e] := by
  cases so <;> exact ⟨_, rfl⟩

theorem processStation_status (so : SendOutcome) (ts : String) (online : List String)
    (acc : TickAcc) (t : String) :
    (processStation so ts online acc t).status = statusSet acc.status t (online.contains t) := by
  unfold processStation
  dsimp only
  congr 1
  split
  · simp [accLog, accPing_status]
  · split
    · simp [accLog, accPing_status]
    · rfl

theorem processStation_pings (so : SendOutcome) (ts : String) (online : List String)
    (acc : TickAcc) (t : String) :
    (processStation so ts online acc t).pings
      = acc.pings
        ++ stationPings (online.contains t) ((statusGet acc.status t).getD false) t := by
  unfold processStation stationPings
  dsimp only
  split
  · simp [accLog, accPing_pings]
  · split
    · simp [accLog, accPing_pings]
    · simp

theorem accPing_events (so : SendOutcome) (ts : String) (acc : TickAcc) (n : Notif) :
    (accPing so ts acc n).events = acc.events ++ [pingLogEntry so ts] := by
  cases so <;> rfl

theorem processStation_events (so : SendOutcome) (ts : String) (online : List String)
    (acc : TickAcc) (t : String) :
    (processStation so ts online acc t).events
      = acc.events
        ++ stationEvents so ts (online.contains t) ((statusGet acc.status t).getD false) t := by
  unfold processStation stationEvents
  dsimp only
  split
  · simp [accLog, accPing_events]
  · split
    · simp [accLog, accPing_events]
    · simp

theorem processStation_events_append (so : SendOutcome) (ts : String) (online : List String)
    (acc : TickAcc) (t : String) :
    ∃ ev, (processStation so ts online acc t).events = acc.events ++ ev :=
  ⟨_, processStation_events so ts online acc t⟩

/-! ### Counting notifications produced by one loop iteration -/

theorem stationPings_count_online_self (c w : Bool) (s : String) :
    (stationPings c w s).count (Notif.online s) = if c && !w then 1 else 0 := by
  cases c <;> cases w <;> simp [stationPings]

theorem stationPings_count_offline_self (c w : Bool) (s : String) :
    (stationPings c w s).count (Notif.offline s) = if !c && w then 1 else 0 := by
  cases c <;> cases w <;> simp [stationPings]

theorem stationPings_count_online_ne (c w : Bool) (t s : String) (h : t ≠ s) :
    (stationPings c w t).count (Notif.online s) = 0 := by
  cases c <;> cases w <;> simp [stationPings, List.count_singleton', h]

theorem stationPings_count_offline_ne (c w : Bool) (t s : String) (h : t ≠ s) :
    (stationPings c w t).count (Notif.offline s) = 0 := by
  cases c <;> cases w <;> simp [stationPings, List.count_singleton', h]

theorem stationPings_count_debug (c w : Bool) (t : String) :
    (stationPings c w t).count Notif.debug = 0 := by
  cases c <;> cases w <;> simp [stationPings]

/-! ### Lemmas about the whole station loop -/

theorem foldl_status_not_mem (so : SendOutcome) (ts : String) (online : List String)
    (l : List String) (acc : TickAcc) (s : String) (h : s ∉ l) :
    statusGet (l.foldl (processStation so ts online) acc).status s = statusGet acc.status s := by
  induction l generalizing acc with
  | nil => rfl
  | cons t rest ih =>
    simp only [List.mem_cons, not_or] at h
    simp only [List.foldl_cons]
    rw [ih _ h.2, processStation_status,
      statusGet_statusSet_ne _ _ _ _ fun he => h.1 he.symm]

theorem foldl_status_mem (so : SendOutcome) (ts : String) (online : List String)
    (l : List String) (acc : TickAcc) (s : String) (h : s ∈ l) :
    statusGet (l.foldl (processStation so ts online) acc).status s
      = some (online.contains s) := by
  induction l generalizing acc with
  | nil => cases h
  | cons t rest ih =>
    simp only [List.foldl_cons]
    by_cases hr : s ∈ rest
    · exact ih _ hr
    · have hst : s = t := by
        rcases List.mem_cons.mp h with h1 | h1
        · exact h1
        · exact absurd h1 hr
      rw [foldl_status_not_mem _ _ _ _ _ _ hr, processStation_status]
      subst hst
      rw [statusGet_statusSet_self]

theorem foldl_status_isSome (so : SendOutcome) (ts : String) (online : List String)
    (l : List String) (acc : TickAcc) (s : String)
    (h : (statusGet (l.foldl (processStation so ts online) acc).status s).isSome) :
    s ∈ l ∨ (statusGet acc.status s).isSome := by
  induction l generalizing acc with
  | nil => exact Or.inr h
  | cons t rest ih =>
    simp only [List.foldl_cons] at h
    rcases ih _ h with h1 | h1
    · exact Or.inl (List.mem_cons_of_mem _ h1)
    · rw [processStation_status] at h1
      rcases statusGet_isSome_statusSet _ _ _ _ h1 with h2 | h2
      · rw [h2]
        exact Or.inl (List.mem_cons_self _ _)
      · exact Or.inr h2

theorem foldl_counts_not_mem (so : SendOutcome) (ts : String) (online : List String)
    (l : List String) (acc : TickAcc) (s : String) (h : s ∉ l) :
    (l.foldl (processStation so ts online) acc).pings.count (Notif.online s)
        = acc.pings.count (Notif.online s)
    ∧ (l.foldl (processStation so ts online) acc).pings.count (Notif.offline s)
        = acc.pings.count (Notif.offline s) := by
  induction l generalizing acc with
  | nil => exact ⟨rfl, rfl⟩
  | cons t rest ih =>
    simp only [List.mem_cons, not_or] at h
    simp only [List.foldl_cons]
    have hne : t ≠ s := fun he => h.1 he.symm
    obtain ⟨ih1, ih2⟩ := ih (processStation so ts online acc t) h.2
    constructor
    · rw [ih1, processStation_pings, List.count_append,
        stationPings_count_online_ne _ _ _ _ hne]
      omega
    · rw [ih2, processStation_pings, List.count_append,
        stationPings_count_offline_ne _ _ _ _ hne]
      omega

theorem foldl_count_debug (so : SendOutcome) (ts : String) (online : List String)
    (l : List String) (acc : TickAcc) :
    (l.foldl (processStation so ts online) acc).pings.count Notif.debug
      = acc.pings.count Notif.debug := by
  induction l generalizing acc with
  | nil => rfl
  | cons t rest ih =>
    simp only [List.foldl_cons]
    rw [ih, processStation_pings, List.count_append, stationPings_count_debug]
    omega

theorem foldl_counts_count_one (so : SendOutcome) (ts : String) (online : List String)
    (l : List String) (acc : TickAcc) (s : String) (h : l.count s = 1) :
    (l.foldl (processStation so ts online) acc).pings.count (Notif.online s)
        = acc.pings.count (Notif.online s)
          + (if online.contains s && !((statusGet acc.status s).getD false) then 1 else 0)
    ∧ (l.foldl (processStation so ts online) acc).pings.count (Notif.offline s)
        = acc.pings.count (Notif.offline s)
          + (if !(online.contains s) && (statusGet acc.status s).getD false then 1 else 0) := by
  induction l generalizing acc with
  | nil => simp at h
  | cons t rest ih =>
    simp only [List.foldl_cons]
    by_cases hts : t = s
    · subst hts
      rw [List.count_cons_self] at h
      have hrest : t ∉ rest := by
        rw [← List.count_eq_zero]
        omega
      obtain ⟨h1, h2⟩ := foldl_counts_not_mem so ts online rest
        (processStation so ts online acc t) t hrest
      constructor
      · rw [h1, processStation_pings, List.count_append, stationPings_count_online_self]
      · rw [h2, processStation_pings, List.count_append, stationPings_count_offline_self]
    · rw [List.count_cons_of_ne (fun he => hts he.symm)] at h
      obtain ⟨ih1, ih2⟩ := ih (processStation so ts online acc t) h
      have hstat : statusGet (processStation so ts online acc t).status s
          = statusGet acc.status s := by
        rw [processStation_status, statusGet_statusSet_ne _ _ _ _ hts]
      constructor
      · rw [ih1, hstat, processStation_pings, List.count_append,
          stationPings_count_online_ne _ _ _ _ hts]
        omega
      · rw [ih2, hstat, processStation_pings, List.count_append,
          stationPings_count_offline_ne _ _ _ _ hts]
        omega

theorem foldl_events_append (so : SendOutcome) (ts : String) (online : List String)
    (l : List String) (acc : TickAcc) :
    ∃ ev, (l.foldl (processStation so ts online) acc).events = acc.events ++ ev := by
  induction l generalizing acc with
  | nil => exact ⟨[], by simp⟩
  | cons t rest ih =>
    simp only [List.foldl_cons]
    obtain ⟨e2, he2⟩ := ih (processStation so ts online acc t)
    exact ⟨_, by rw [he2, processStation_events, List.append_assoc]⟩

/-! ### Lemmas about the tick stages -/

theorem tickStart_status (ts : String) (st : AppState) :
    (tickStart ts st).status = st.station_status := rfl

theorem tickStart_pings (ts : String) (st : AppState) : (tickStart ts st).pings = [] := rfl

theorem tickStart_events (ts : String) (st : AppState) :
    (tickStart ts st).events = [mkEntry ts "monitor_vatsim tick"] := rfl

theorem tickBody_err (e : String) (so : SendOutcome) (ts : String) (mon : List String)
    (acc1 : TickAcc) :
    tickBody (.err e) so ts mon acc1
      = accLog acc1 (mkEntry ts ("ERROR in VATSIM section: " ++ e)) := rfl

theorem warnIf_status (acc1 : TickAcc) (c : Bool) (w : String) :
    ((if c then accLog acc1 w else acc1)).status = acc1.status := by
  split <;> rfl

theorem warnIf_pings (acc1 : TickAcc) (c : Bool) (w : String) :
    ((if c then accLog acc1 w else acc1)).pings = acc1.pings := by
  split <;> rfl

theorem tickBody_ok_statusGet_mem (p : Payload) (so : SendOutcome) (ts : String)
    (mon : List String) (acc1 : TickAcc) (s : String) (h : s ∈ mon) :
    statusGet (tickBody (.ok p) so ts mon acc1).status s
      = some ((onlineSetOf p).contains s) := by
  unfold tickBody
  dsimp only
  exact foldl_status_mem so ts (onlineSetOf p) mon _ s h

theorem tickBody_status_isSome (fr : FeedResult) (so : SendOutcome) (ts : String)
    (mon : List String) (acc1 : TickAcc) (s : String)
    (h : (statusGet (tickBody fr so ts mon acc1).status s).isSome) :
    s ∈ mon ∨ (statusGet acc1.status s).isSome := by
  cases fr with
  | err e => exact Or.inr h
  | ok p =>
    unfold tickBody at h
    dsimp only at h
    rcases foldl_status_isSome _ _ _ _ _ _ h with h1 | h1
    · exact Or.inl h1
    · rw [warnIf_status] at h1
      exact Or.inr h1

theorem tickBody_count_debug (fr : FeedResult) (so : SendOutcome) (ts : String)
    (mon : List String) (acc1 : TickAcc) :
    (tickBody fr so ts mon acc1).pings.count Notif.debug
      = acc1.pings.count Notif.debug := by
  cases fr with
  | err e => rfl
  | ok p =>
    unfold tickBody
    dsimp only
    rw [foldl_count_debug, warnIf_pings]

theorem tickBody_ok_counts (p : Payload) (so : SendOutcome) (ts : String)
    (mon : List String) (acc1 : TickAcc) (s : String) (h : mon.count s = 1) :
    (tickBody (.ok p) so ts mon acc1).pings.count (Notif.online s)
        = acc1.pings.count (Notif.online s)
          + (if (onlineSetOf p).contains s && !((statusGet acc1.status s).getD false)
             then 1 else 0)
    ∧ (tickBody (.ok p) so ts mon acc1).pings.count (Notif.offline s)
        = acc1.pings.count (Notif.offline s)
          + (if !((onlineSetOf p).contains s) && (statusGet acc1.status s).getD false
             then 1 else 0) := by
  unfold tickBody
  dsimp only
  obtain ⟨h1, h2⟩ := foldl_counts_count_one so ts (onlineSetOf p) mon
    (if (controllersOf p).2 then
      accLog acc1 (mkEntry ts "WARNING: VATSIM 'controllers' key is missing or invalid")
     else acc1) s h
  rw [warnIf_pings, warnIf_status] at h1 h2
  exact ⟨h1, h2⟩

theorem tickBody_events_append (fr : FeedResult) (so : SendOutcome) (ts : String)
    (mon : List String) (acc1 : TickAcc) :
    ∃ ev, (tickBody fr so ts mon acc1).events = acc1.events ++ ev := by
  cases fr with
  | err e => exact ⟨_, accLog_events _ _⟩
  | ok p =>
    unfold tickBody
    dsimp only
    by_cases hc : (controllersOf p).2 = true
    · rw [if_pos hc]
      obtain ⟨ev, hev⟩ := foldl_events_append so ts (onlineCallsignsOf (controllersOf p).1) mon
        (accLog acc1 (mkEntry ts "WARNING: VATSIM 'controllers' key is missing or invalid"))
      rw [hev, accLog_events]
      exact ⟨_, List.append_assoc _ _ _⟩
    · rw [if_neg hc]
      exact foldl_events_append so ts (onlineCallsignsOf (controllersOf p).1) mon acc1

theorem tickBody_ok_warn_event (p : Payload) (so : SendOutcome) (ts : String)
    (mon : List String) (acc1 : TickAcc) (hw : (controllersOf p).2 = true) :
    mkEntry ts "WARNING: VATSIM 'controllers' key is missing or invalid"
      ∈ (tickBody (.ok p) so ts mon acc1).events := by
  unfold tickBody
  dsimp only
  rw [if_pos hw]
  obtain ⟨ev, hev⟩ := foldl_events_append so ts (onlineCallsignsOf (controllersOf p).1) mon
    (accLog acc1 (mkEntry ts "WARNING: VATSIM 'controllers' key is missing or invalid"))
  rw [hev, accLog_events]
  simp

theorem debugPing_status (so : SendOutcome) (ts : String) (dbg : Bool) (acc : TickAcc) :
    (debugPing so ts dbg acc).status = acc.status := by
  unfold debugPing
  split
  · simp [accLog, accPing_status]
  · rfl

theorem debugPing_pings (so : SendOutcome) (ts : String) (dbg : Bool) (acc : TickAcc) :
    (debugPing so ts dbg acc).pings
      = acc.pings ++ (if dbg then [Notif.debug] else []) := by
  unfold debugPing
  split <;> simp [accLog, accPing_pings]

theorem debugPing_events (so : SendOutcome) (ts : String) (dbg : Bool) (acc : TickAcc) :
    (debugPing so ts dbg acc).events
      = acc.events
        ++ (if dbg then [pingLogEntry so ts, mkEntry ts "Debug ping sent"] else []) := by
  unfold debugPing
  split <;> simp [accLog, accPing_events]

/-! ### Components of one whole tick -/

theorem monitor_vatsim_status (fr : FeedResult) (so : SendOutcome) (ts : String)
    (st : AppState) :
    (monitor_vatsim fr so ts st).state.station_status
      = (tickBody fr so ts st.monitored_stations (tickStart ts st)).status := by
  unfold monitor_vatsim
  dsimp only
  rw [debugPing_status]

theorem monitor_vatsim_monitored (fr : FeedResult) (so : SendOutcome) (ts : String)
    (st : AppState) :
    (monitor_vatsim fr so ts st).state.monitored_stations = st.monitored_stations := rfl

theorem monitor_vatsim_debug_mode (fr : FeedResult) (so : SendOutcome) (ts : String)
    (st : AppState) :
    (monitor_vatsim fr so ts st).state.debug_mode = st.debug_mode := rfl

theorem monitor_vatsim_pings (fr : FeedResult) (so : SendOutcome) (ts : String)
    (st : AppState) :
    (monitor_vatsim fr so ts st).pings
      = (tickBody fr so ts st.monitored_stations (tickStart ts st)).pings
        ++ (if st.debug_mode then [Notif.debug] else []) := by
  unfold monitor_vatsim
  dsimp only
  rw [debugPing_pings]

theorem monitor_vatsim_events (fr : FeedResult) (so : SendOutcome) (ts : String)
    (st : AppState) :
    (monitor_vatsim fr so ts st).events
      = (tickBody fr so ts st.monitored_stations (tickStart ts st)).events
        ++ (if st.debug_mode then [pingLogEntry so ts, mkEntry ts "Debug ping sent"] else []) := by
  unfold monitor_vatsim
  dsimp only
  rw [debugPing_events]

/-! ### Log contents never influence the rest of a tick -/

theorem accSim_accLog (a b : TickAcc) (e : String) (h : accSim a b) :
    accSim (accLog a e) (accLog b e) := by
  obtain ⟨h1, h2, h3⟩ := h
  exact ⟨h1, by rw [accLog_events, accLog_events, h2], h3⟩

theorem accSim_accPing (so : SendOutcome) (ts : String) (a b : TickAcc) (n : Notif)
    (h : accSim a b) :
    accSim (accPing so ts a n) (accPing so ts b n) := by
  obtain ⟨h1, h2, h3⟩ := h
  exact ⟨by rw [accPing_status, accPing_status, h1],
    by rw [accPing_events, accPing_events, h2],
    by rw [accPing_pings, accPing_pings, h3]⟩

theorem accSim_processStation (so : SendOutcome) (ts : String) (online : List String)
    (t : String) (a b : TickAcc) (h : accSim a b) :
    accSim (processStation so ts online a t) (processStation so ts online b t) := by
  obtain ⟨h1, h2, h3⟩ := h
  refine ⟨?_, ?_, ?_⟩
  · rw [processStation_status, processStation_status, h1]
  · rw [processStation_events, processStation_events, h1, h2]
  · rw [processStation_pings, processStation_pings, h1, h3]

theorem accSim_foldl (so : SendOutcome) (ts : String) (online : List String)
    (l : List String) (a b : TickAcc) (h : accSim a b) :
    accSim (l.foldl (processStation so ts online) a)
      (l.foldl (processStation so ts online) b) := by
  induction l generalizing a b with
  | nil => exact h
  | cons t rest ih => exact ih _ _ (accSim_processStation _ _ _ _ _ _ h)

theorem accSim_tickBody (fr : FeedResult) (so : SendOutcome) (ts : String)
    (mon : List String) (a b : TickAcc) (h : accSim a b) :
    accSim (tickBody fr so ts mon a) (tickBody fr so ts mon b) := by
  cases fr with
  | err e => exact accSim_accLog _ _ _ h
  | ok p =>
    unfold tickBody
    dsimp only
    by_cases hc : (controllersOf p).2 = true
    · rw [if_pos hc, if_pos hc]
      exact accSim_foldl _ _ _ _ _ _ (accSim_accLog _ _ _ h)
    · rw [if_neg hc, if_neg hc]
      exact accSim_foldl _ _ _ _ _ _ h

theorem accSim_debugPing (so : SendOutcome) (ts : String) (dbg : Bool) (a b : TickAcc)
    (h : accSim a b) :
    accSim (debugPing so ts dbg a) (debugPing so ts dbg b) := by
  unfold debugPing
  split
  · exact accSim_accLog _ _ _ (accSim_accPing _ _ _ _ _ h)
  · exact h

/-- Two states agreeing on everything but the log produce the same status map,
notifications and log messages on the next tick. -/
theorem monitor_vatsim_indep (fr : FeedResult) (so : SendOutcome) (ts : String)
    (st1 st2 : AppState)
    (hm : st1.monitored_stations = st2.monitored_stations)
    (hs : st1.station_status = st2.station_status)
    (hd : st1.debug_mode = st2.debug_mode) :
    (monitor_vatsim fr so ts st1).state.station_status
        = (monitor_vatsim fr so ts st2).state.station_status
    ∧ (monitor_vatsim fr so ts st1).pings = (monitor_vatsim fr so ts st2).pings
    ∧ (monitor_vatsim fr so ts st1).events = (monitor_vatsim fr so ts st2).events := by
  have hsim : accSim (tickStart ts st1) (tickStart ts st2) :=
    accSim_accLog _ _ _ ⟨hs, rfl, rfl⟩
  have hb := accSim_tickBody fr so ts st2.monitored_stations _ _ hsim
  refine ⟨?_, ?_, ?_⟩
  · rw [monitor_vatsim_status, monitor_vatsim_status, hm]
    exact hb.1
  · rw [monitor_vatsim_pings, monitor_vatsim_pings, hm, hd, hb.2.2]
  · rw [monitor_vatsim_events, monitor_vatsim_events, hm, hd, hb.2.1]

/-! ### Claim theorems -/

/-- C3: for every sequence of log operations the log never exceeds 300
entries, and once the cap is reached the oldest entry (the head) is evicted
first, FIFO. -/
theorem C3_log_bounded_fifo (l : List String) (e : String) (msgs : List String) :
    (msgs.foldl logOp []).length ≤ 300
    ∧ (l.length ≤ 300 → (logOp l e).length ≤ 300)
    ∧ (l.length = 300 → logOp l e = l.drop 1 ++ [e]) := by
  have hstep : ∀ (l0 : List String) (e0 : String),
      l0.length ≤ 300 → (logOp l0 e0).length ≤ 300 := by
    intro l0 e0 h
    unfold logOp
    dsimp only
    split
    · simp
      omega
    · rename_i hgt
      simp at hgt ⊢
      omega
  refine ⟨?_, hstep l e, ?_⟩
  · have hall : ∀ (ms : List String) (l0 : List String),
        l0.length ≤ 300 → (ms.foldl logOp l0).length ≤ 300 := by
      intro ms
      induction ms with
      | nil => exact fun l0 h => h
      | cons m rest ih => exact fun l0 h => ih _ (hstep _ _ h)
    exact hall msgs [] (by simp)
  · intro h
    unfold logOp
    dsimp only
    rw [if_pos (by simp [h]), List.drop_append_eq_append_drop]
    simp [h]

/-- Witness for C3 at a log holding exactly 300 entries. -/
theorem C3_log_bounded_fifo_witness :
    (logOp (List.replicate 300 "x") "y").length ≤ 300
    ∧ logOp (List.replicate 300 "x") "y" = (List.replicate 300 "x").drop 1 ++ ["y"] :=
  ⟨(C3_log_bounded_fifo (List.replicate 300 "x") "y" []).2.1 (List.length_replicate 300 "x").le,
   (C3_log_bounded_fifo (List.replicate 300 "x") "y" []).2.2 (List.length_replicate 300 "x")⟩

/-- C4: adding then removing a station leaves no status-map entry for it;
removal deletes the identifier from the monitored set and any status entry,
and is a no-op on the monitored set and on the status map when the identifier
is absent (it is a total function, so no exception is possible). -/
theorem C4_add_remove (st : AppState) (s ts ts2 : String) :
    statusGet (removeStation s ts2 (addStation s ts st)).station_status s = none
    ∧ s ∉ (removeStation s ts2 st).monitored_stations
    ∧ statusGet (removeStation s ts2 st).station_status s = none
    ∧ (s ∉ st.monitored_stations →
        (removeStation s ts2 st).monitored_stations = st.monitored_stations)
    ∧ (statusGet st.station_status s = none →
        (removeStation s ts2 st).station_status = st.station_status) := by
  refine ⟨statusGet_statusPop_self _ _, ?_, statusGet_statusPop_self _ _, ?_, ?_⟩
  · simp [removeStation, mem_setDiscard_iff]
  · intro h
    unfold removeStation
    dsimp only
    rw [setDiscard_eq_self _ _ h]
  · intro h
    unfold removeStation
    dsimp only
    rw [statusPop_eq_self _ _ h]

/-- Witness for C4: removing a never-monitored station from the initial state
changes neither the monitored set nor the status map. -/
theorem C4_add_remove_witness :
    (removeStation "AAA" "t2" initState).monitored_stations = initState.monitored_stations
    ∧ (removeStation "AAA" "t2" initState).station_status = initState.station_status :=
  ⟨(C4_add_remove initState "AAA" "t1" "t2").2.2.2.1 (by decide),
   (C4_add_remove initState "AAA" "t1" "t2").2.2.2.2 (by decide)⟩

/-- C8: the add-station handler uppercases and strips the raw identifier; an
identifier that is empty after normalization is a complete no-op, otherwise
the normalized identifier is inserted into the monitored set, a log entry is
appended, and nothing else changes. -/
theorem C8_add_station (raw ts : String) (st : AppState) :
    (normalizeStation raw = "" → addStation raw ts st = st)
    ∧ (normalizeStation raw ≠ "" →
        (addStation raw ts st).monitored_stations
            = setAdd st.monitored_stations (normalizeStation raw)
        ∧ normalizeStation raw ∈ (addStation raw ts st).monitored_stations
        ∧ (addStation raw ts st).station_status = st.station_status
        ∧ (addStation raw ts st).debug_mode = st.debug_mode
        ∧ (addStation raw ts st).logs
            = logOp st.logs (mkEntry ts ("Started monitoring " ++ normalizeStation raw))) := by
  constructor
  · intro h
    unfold addStation
    dsimp only
    rw [if_pos h]
  · intro h
    unfold addStation
    dsimp only
    rw [if_neg h]
    exact ⟨rfl, mem_setAdd_self _ _, rfl, rfl, rfl⟩

/-- Witness for C8: whitespace-only input is rejected silently; a lowercase
padded input is monitored under its normalized name. -/
theorem C8_add_station_witness :
    addStation "  " "t" initState = initState
    ∧ normalizeStation " aaa " ∈ (addStation " aaa " "t" initState).monitored_stations :=
  ⟨(C8_add_station "  " "t" initState).1 (by decide),
   ((C8_add_station " aaa " "t" initState).2 (by decide)).2.1⟩

/-- C9: the remove-station handler applies no normalization: after adding an
identifier whose normalized form differs from the raw string, removing the raw
string changes neither the monitored set nor the status map, yet a
"Stopped monitoring" log entry is appended — indeed removal logs
unconditionally, monitored or not. -/
theorem C9_remove_unnormalized (raw ts ts2 : String) (st : AppState)
    (hraw : normalizeStation raw ≠ raw)
    (hmem : raw ∉ st.monitored_stations)
    (hst : statusGet st.station_status raw = none) :
    (removeStation raw ts2 (addStation raw ts st)).monitored_stations
        = (addStation raw ts st).monitored_stations
    ∧ (removeStation raw ts2 (addStation raw ts st)).station_status
        = (addStation raw ts st).station_status
    ∧ (∀ st4 : AppState, (removeStation raw ts2 st4).logs
        = logOp st4.logs (mkEntry ts2 ("Stopped monitoring " ++ raw))) := by
  have hmon : raw ∉ (addStation raw ts st).monitored_stations := by
    unfold addStation
    dsimp only
    split
    · exact hmem
    · rw [mem_setAdd_iff]
      rintro (h1 | h1)
      · exact hmem h1
      · exact hraw h1.symm
  have hss : (addStation raw ts st).station_status = st.station_status := by
    unfold addStation
    dsimp only
    split <;> rfl
  refine ⟨?_, ?_, fun st4 => rfl⟩
  · unfold removeStation
    dsimp only
    rw [setDiscard_eq_self _ _ hmon]
  · unfold removeStation
    dsimp only
    rw [hss, statusPop_eq_self _ _ hst]

/-- Witness for C9 with the raw string "aaa", whose normalized form is "AAA". -/
theorem C9_remove_unnormalized_witness :
    (removeStation "aaa" "t2" (addStation "aaa" "t1" initState)).monitored_stations
        = (addStation "aaa" "t1" initState).monitored_stations
    ∧ (removeStation "aaa" "t2" (addStation "aaa" "t1" initState)).station_status
        = (addStation "aaa" "t1" initState).station_status
    ∧ (∀ st4 : AppState, (removeStation "aaa" "t2" st4).logs
        = logOp st4.logs (mkEntry "t2" ("Stopped monitoring " ++ "aaa"))) :=
  C9_remove_unnormalized "aaa" "t1" "t2" initState (by decide) (by decide) (by decide)

/-- C1: on a tick with a fetched payload, a monitored station's new status is
exactly its membership in the computed online set, compared against the
previously recorded boolean (false when absent): the tick sends exactly one
online notification for a false-to-true transition, exactly one offline
notification for a true-to-false transition, none when unchanged, and stores
the fresh boolean unconditionally. -/
theorem C1_transition_detector (st : AppState) (p : Payload) (so : SendOutcome) (ts s : String)
    (hcount : st.monitored_stations.count s = 1) :
    statusGet (monitor_vatsim (.ok p) so ts st).state.station_status s
        = some ((onlineSetOf p).contains s)
    ∧ (monitor_vatsim (.ok p) so ts st).pings.count (Notif.online s)
        = (if (onlineSetOf p).contains s && !((statusGet st.station_status s).getD false)
           then 1 else 0)
    ∧ (monitor_vatsim (.ok p) so ts st).pings.count (Notif.offline s)
        = (if !((onlineSetOf p).contains s) && (statusGet st.station_status s).getD false
           then 1 else 0)
    ∧ ((onlineSetOf p).contains s = (statusGet st.station_status s).getD false →
        (monitor_vatsim (.ok p) so ts st).pings.count (Notif.online s) = 0
        ∧ (monitor_vatsim (.ok p) so ts st).pings.count (Notif.offline s) = 0) := by
  have hmem : s ∈ st.monitored_stations := by
    by_contra hnm
    rw [List.count_eq_zero.mpr hnm] at hcount
    exact absurd hcount (by decide)
  obtain ⟨hv1, hv2⟩ := tickBody_ok_counts p so ts st.monitored_stations (tickStart ts st) s hcount
  rw [tickStart_pings, tickStart_status] at hv1 hv2
  have hcnt_on : (monitor_vatsim (.ok p) so ts st).pings.count (Notif.online s)
      = (tickBody (.ok p) so ts st.monitored_stations (tickStart ts st)).pings.count
          (Notif.online s) := by
    rw [monitor_vatsim_pings, List.count_append]
    split <;> simp [List.count_singleton']
  have hcnt_off : (monitor_vatsim (.ok p) so ts st).pings.count (Notif.offline s)
      = (tickBody (.ok p) so ts st.monitored_stations (tickStart ts st)).pings.count
          (Notif.offline s) := by
    rw [monitor_vatsim_pings, List.count_append]
    split <;> simp [List.count_singleton']
  refine ⟨?_, ?_, ?_, ?_⟩
  · rw [monitor_vatsim_status]
    exact tickBody_ok_statusGet_mem p so ts _ _ s hmem
  · rw [hcnt_on, hv1]
    simp
  · rw [hcnt_off, hv2]
    simp
  · intro heq
    constructor
    · rw [hcnt_on, hv1, heq]
      simp
    · rw [hcnt_off, hv2, heq]
      simp

/-- Witness for C1: a station going online on a concrete tick. -/
theorem C1_transition_detector_witness :
    statusGet (monitor_vatsim (.ok exPayloadOnline) .sent "T" exSt).state.station_status "AAA"
        = some ((onlineSetOf exPayloadOnline).contains "AAA")
    ∧ (monitor_vatsim (.ok exPayloadOnline) .sent "T" exSt).pings.count (Notif.online "AAA")
        = (if (onlineSetOf exPayloadOnline).contains "AAA"
              && !((statusGet exSt.station_status "AAA").getD false)
           then 1 else 0)
    ∧ (monitor_vatsim (.ok exPayloadOnline) .sent "T" exSt).pings.count (Notif.offline "AAA")
        = (if !((onlineSetOf exPayloadOnline).contains "AAA")
              && (statusGet exSt.station_status "AAA").getD false
           then 1 else 0)
    ∧ ((onlineSetOf exPayloadOnline).contains "AAA"
          = (statusGet exSt.station_status "AAA").getD false →
        (monitor_vatsim (.ok exPayloadOnline) .sent "T" exSt).pings.count (Notif.online "AAA") = 0
        ∧ (monitor_vatsim (.ok exPayloadOnline) .sent "T" exSt).pings.count
            (Notif.offline "AAA") = 0) :=
  C1_transition_detector exSt exPayloadOnline .sent "T" "AAA" (by decide)

/-- C2 counterexample: on a payload with no `controllers` key the tick logs no
warning at all — the code defaults the missing key to the empty list, which
passes the `isinstance` check — even though every monitored station is still
computed as offline. -/
theorem C2_counterexample :
    (monitor_vatsim (.ok exPayloadMissing) .sent "T" exSt).events
        = [mkEntry "T" "monitor_vatsim tick"]
    ∧ mkEntry "T" "WARNING: VATSIM 'controllers' key is missing or invalid"
        ∉ (monitor_vatsim (.ok exPayloadMissing) .sent "T" exSt).events
    ∧ statusGet (monitor_vatsim (.ok exPayloadMissing) .sent "T"
        exSt).state.station_status "AAA" = some false := by
  decide

/-- C2 (amended): a payload whose `controllers` value is present but not a
list yields an empty online set (every monitored station computed offline), a
logged warning, and a completed tick; a payload lacking the key entirely also
yields the empty online set and a completed tick, but takes the no-warning
branch, since the missing key defaults to the empty list. -/
theorem C2_malformed_feed (st : AppState) (so : SendOutcome) (ts s : String)
    (hs : s ∈ st.monitored_stations) :
    statusGet (monitor_vatsim (.ok exPayloadNonList) so ts st).state.station_status s
        = some false
    ∧ mkEntry ts "WARNING: VATSIM 'controllers' key is missing or invalid"
        ∈ (monitor_vatsim (.ok exPayloadNonList) so ts st).events
    ∧ statusGet (monitor_vatsim (.ok exPayloadMissing) so ts st).state.station_status s
        = some false
    ∧ controllersOf exPayloadMissing = ([], false)
    ∧ controllersOf exPayloadNonList = ([], true) := by
  refine ⟨?_, ?_, ?_, rfl, rfl⟩
  · rw [monitor_vatsim_status]
    exact tickBody_ok_statusGet_mem exPayloadNonList so ts _ _ s hs
  · rw [monitor_vatsim_events]
    exact List.mem_append_left _
      (tickBody_ok_warn_event exPayloadNonList so ts st.monitored_stations (tickStart ts st) rfl)
  · rw [monitor_vatsim_status]
    exact tickBody_ok_statusGet_mem exPayloadMissing so ts _ _ s hs

/-- Witness for the amended C2 at a concrete monitored station. -/
theorem C2_malformed_feed_witness :
    statusGet (monitor_vatsim (.ok exPayloadNonList) .sent "T" exSt).state.station_status "AAA"
        = some false
    ∧ mkEntry "T" "WARNING: VATSIM 'controllers' key is missing or invalid"
        ∈ (monitor_vatsim (.ok exPayloadNonList) .sent "T" exSt).events
    ∧ statusGet (monitor_vatsim (.ok exPayloadMissing) .sent "T" exSt).state.station_status "AAA"
        = some false
    ∧ controllersOf exPayloadMissing = ([], false)
    ∧ controllersOf exPayloadNonList = ([], true) :=
  C2_malformed_feed exSt .sent "T" "AAA" (by decide)

/-- C6: exactly one debug notification is sent on a tick when the debug flag
is set and none otherwise, for every fetch result and delivery outcome. -/
theorem C6_debug_notification (st : AppState) (fr : FeedResult) (so : SendOutcome) (ts : String) :
    (monitor_vatsim fr so ts st).pings.count Notif.debug
      = if st.debug_mode then 1 else 0 := by
  rw [monitor_vatsim_pings, List.count_append, tickBody_count_debug, tickStart_pings]
  split <;> simp

/-- C7: a fetch/parse failure is logged, changes nothing but the log, and the
next tick proceeds exactly as it would have without the failure. -/
theorem C7_feed_failure_contained (st : AppState) (e ts : String) (so : SendOutcome)
    (fr2 : FeedResult) (so2 : SendOutcome) (ts2 : String) :
    mkEntry ts ("ERROR in VATSIM section: " ++ e) ∈ (monitor_vatsim (.err e) so ts st).events
    ∧ (monitor_vatsim (.err e) so ts st).state.monitored_stations = st.monitored_stations
    ∧ (monitor_vatsim (.err e) so ts st).state.station_status = st.station_status
    ∧ (monitor_vatsim (.err e) so ts st).state.debug_mode = st.debug_mode
    ∧ (monitor_vatsim fr2 so2 ts2 (monitor_vatsim (.err e) so ts st).state).state.station_status
        = (monitor_vatsim fr2 so2 ts2 st).state.station_status
    ∧ (monitor_vatsim fr2 so2 ts2 (monitor_vatsim (.err e) so ts st).state).pings
        = (monitor_vatsim fr2 so2 ts2 st).pings
    ∧ (monitor_vatsim fr2 so2 ts2 (monitor_vatsim (.err e) so ts st).state).events
        = (monitor_vatsim fr2 so2 ts2 st).events := by
  have hss : (monitor_vatsim (.err e) so ts st).state.station_status = st.station_status := by
    rw [monitor_vatsim_status, tickBody_err, accLog_status, tickStart_status]
  have hindep := monitor_vatsim_indep fr2 so2 ts2 (monitor_vatsim (.err e) so ts st).state st
    (monitor_vatsim_monitored _ _ _ _) hss (monitor_vatsim_debug_mode _ _ _ _)
  refine ⟨?_, monitor_vatsim_monitored _ _ _ _, hss, monitor_vatsim_debug_mode _ _ _ _,
    hindep.1, hindep.2.1, hindep.2.2⟩
  rw [monitor_vatsim_events, tickBody_err, accLog_events, tickStart_events]
  simp

/-- C10: on a fetch/parse exception the status map is untouched and no
station notification is sent (the error path mutates only the log), whereas
the missing-`controllers`-key path records every monitored station as
offline. -/
theorem C10_error_path_isolated (st : AppState) (e ts : String) (so : SendOutcome) (s : String)
    (hs : s ∈ st.monitored_stations) :
    (monitor_vatsim (.err e) so ts st).state.station_status = st.station_status
    ∧ (∀ t, Notif.online t ∉ (monitor_vatsim (.err e) so ts st).pings)
    ∧ (∀ t, Notif.offline t ∉ (monitor_vatsim (.err e) so ts st).pings)
    ∧ statusGet (monitor_vatsim (.ok exPayloadMissing) so ts st).state.station_status s
        = some false := by
  refine ⟨?_, ?_, ?_, ?_⟩
  · rw [monitor_vatsim_status, tickBody_err, accLog_status, tickStart_status]
  · intro t
    rw [monitor_vatsim_pings, tickBody_err, accLog_pings, tickStart_pings]
    split <;> simp
  · intro t
    rw [monitor_vatsim_pings, tickBody_err, accLog_pings, tickStart_pings]
    split <;> simp
  · rw [monitor_vatsim_status]
    exact tickBody_ok_statusGet_mem exPayloadMissing so ts _ _ s hs

/-- Witness for C10 on a concrete failing tick. -/
theorem C10_error_path_isolated_witness :
    (monitor_vatsim (.err "boom") .sent "T" exSt).state.station_status = exSt.station_status
    ∧ (∀ t, Notif.online t ∉ (monitor_vatsim (.err "boom") .sent "T" exSt).pings)
    ∧ (∀ t, Notif.offline t ∉ (monitor_vatsim (.err "boom") .sent "T" exSt).pings)
    ∧ statusGet (monitor_vatsim (.ok exPayloadMissing) .sent "T" exSt).state.station_status "AAA"
        = some false :=
  C10_error_path_isolated exSt "boom" "T" .sent "AAA" (by decide)

/-- Every single event preserves the invariant that the keys of the status
map are currently monitored stations. -/
theorem step_status_keys (st : AppState) (ev : Ev)
    (h : ∀ u, (statusGet st.station_status u).isSome → u ∈ st.monitored_stations) :
    ∀ u, (statusGet (step st ev).station_status u).isSome
      → u ∈ (step st ev).monitored_stations := by
  intro u hu
  cases ev with
  | add raw ts =>
    by_cases hn : normalizeStation raw = ""
    · simp only [step, addStation, if_pos hn] at hu ⊢
      exact h u hu
    · simp only [step, addStation, if_neg hn] at hu ⊢
      rw [mem_setAdd_iff]
      exact Or.inl (h u hu)
  | remove r ts =>
    simp only [step, removeStation] at hu ⊢
    rw [mem_setDiscard_iff]
    refine ⟨h u (statusGet_isSome_statusPop _ _ _ hu), ?_⟩
    intro he
    rw [he, statusGet_statusPop_self] at hu
    simp at hu
  | toggle ts =>
    simp only [step, toggleDebug] at hu ⊢
    exact h u hu
  | tick fr so ts =>
    simp only [step] at hu ⊢
    rw [monitor_vatsim_monitored]
    rw [monitor_vatsim_status] at hu
    rcases tickBody_status_isSome fr so ts _ _ u hu with h1 | h1
    · exact h1
    · rw [tickStart_status] at h1
      exact h u h1

/-- C5: in every state reachable from startup, an identifier with a status-map
entry is in the monitored set now (hence was monitored at some prefix of the
event sequence), and an identifier outside the monitored set has no status-map
entry — removal never leaves a stale entry behind, for any number of
subsequent ticks. -/
theorem C5_status_map_inv (evs : List Ev) (s : String) :
    ((statusGet (run evs).station_status s).isSome →
        s ∈ (run evs).monitored_stations
        ∧ ∃ n, s ∈ (run (List.take n evs)).monitored_stations)
    ∧ (s ∉ (run evs).monitored_stations → statusGet (run evs).station_status s = none) := by
  have main : ∀ (l : List Ev) (st : AppState),
      (∀ u, (statusGet st.station_status u).isSome → u ∈ st.monitored_stations) →
      ∀ u, (statusGet (l.foldl step st).station_status u).isSome
        → u ∈ (l.foldl step st).monitored_stations := by
    intro l
    induction l with
    | nil => exact fun st h => h
    | cons ev rest ih => exact fun st h => ih _ (step_status_keys st ev h)
  have hrun : ∀ u, (statusGet (run evs).station_status u).isSome
      → u ∈ (run evs).monitored_stations := by
    apply main
    intro u hu
    simp [initState, statusGet] at hu
  constructor
  · intro h
    refine ⟨hrun s h, ⟨evs.length, ?_⟩⟩
    rw [List.take_length]
    exact hrun s h
  · intro h
    cases hg : statusGet (run evs).station_status s with
    | none => rfl
    | some b => exact absurd (hrun s (by rw [hg]; rfl)) h

/-- Witness for C5: a concrete trace that adds and then ticks a station, and
the empty trace for the absence direction. -/
theorem C5_status_map_inv_witness :
    ("AAA" ∈ (run [Ev.add "AAA" "t", Ev.tick (.ok exPayloadOnline) .sent "u"]).monitored_stations
      ∧ ∃ n, "AAA" ∈ (run (List.take n
          [Ev.add "AAA" "t", Ev.tick (.ok exPayloadOnline) .sent "u"])).monitored_stations)
    ∧ statusGet (run ([] : List Ev)).station_status "AAA" = none :=
  ⟨(C5_status_map_inv [Ev.add "AAA" "t", Ev.tick (.ok exPayloadOnline) .sent "u"] "AAA").1
      (by decide),
   (C5_status_map_inv ([] : List Ev) "AAA").2 (by decide)⟩

end VatsimApp
